import Mathlib

/-!
Verification development for the TrafficCamNet / LPD Triton-client
postprocessing pipeline (detectnet_v2 postprocessing).

The embedding follows the Python sources:
  * `tao_triton/python/postprocessing/trafficcamnet_processor.py`
    (`load_clustering_config`, `TrafficCamNetPostprocessor.configure`,
     `TrafficCamNetPostprocessor.apply`);
  * `model_client/trafficcamnet_model_class.py` and
    `model_client/lpd_model_class.py` (`predict`).

Numeric values (coverage scores, box coordinates, thresholds) are embedded
as rationals.  Tensors are embedded as nested lists:
coverage is indexed [image][class][flattened grid cell], and the
denormalized bbox tensor as [image][class][flattened grid cell] boxes.
The external DBSCAN clusterer (sklearn) is an oracle parameter producing a
labeling; the filesystem is a `String → Bool` predicate parameter.
-/

/-- An absolute bounding box `(x1, y1, x2, y2)`; in the source a
4-element coordinate array where index 0,1,2,3 are x1,y1,x2,y2. -/
structure Box where
  x1 : ℚ
  y1 : ℚ
  x2 : ℚ
  y2 : ℚ
deriving DecidableEq, Repr

/-- One clustered candidate: its coverage/confidence weight and its
denormalized absolute box (a row of `classwise_covs` zipped with
`classwise_bboxes` in `apply`). -/
structure ClusterMember where
  weight : ℚ
  box : Box
deriving DecidableEq, Repr

/-- Embedding of the `KittiBbox` output record restricted to the fields
`apply` actually populates: class name, the aggregated box `mean_bbox`,
and `confidence_score` (all other KITTI fields are passed as 0). -/
structure KittiBbox where
  category : String
  bbox : Box
  confidence_score : ℚ
deriving DecidableEq, Repr

/-- The `dbscan_config` sub-message of a classwise clustering config. -/
structure DbscanProtoConfig where
  dbscan_eps : ℚ
  dbscan_min_samples : ℚ
  dbscan_confidence_threshold : ℚ
deriving DecidableEq, Repr

/-- The RGB color record of a classwise config (`bbox_color`). -/
structure BboxColor where
  r : ℕ
  g : ℕ
  b : ℕ
deriving DecidableEq, Repr

/-- One entry of `classwise_clustering_config`: the per-class clustering
parameters read from the prototxt spec file. -/
structure ClasswiseConfig where
  dbscan_config : DbscanProtoConfig
  coverage_threshold : ℚ
  minimum_bounding_box_height : ℚ
  bbox_color : BboxColor
deriving DecidableEq, Repr

/-- Embedding of the `PostprocessingConfig` proto message: the stride and
the map from class name to its clustering configuration (the map is an
association list keyed by class name). -/
structure PostprocessingConfig where
  stride : ℚ
  classwise_clustering_config : List (String × ClasswiseConfig)
deriving DecidableEq, Repr

/-- A frame of the batch; only `_image_path` is consumed by `apply`. -/
structure Frame where
  image_path : String
deriving DecidableEq, Repr

/-! ### Cluster aggregation (`apply`, lines 172-198) -/

/-- `aggregated_w = np.sum(w)`: the sum of the cluster members'
confidence weights. -/
def aggregated_w (ms : List ClusterMember) : ℚ :=
  (ms.map (fun m => m.weight)).sum

/-- `mean_bbox = np.sum((b.T*w_norm).T, axis=0)` with
`w_norm = w / aggregated_w`: the per-coordinate weighted average of the
member boxes using weights normalized by the aggregated weight. -/
def mean_bbox (ms : List ClusterMember) : Box :=
  let aw := aggregated_w ms
  { x1 := (ms.map (fun m => m.box.x1 * (m.weight / aw))).sum
    y1 := (ms.map (fun m => m.box.y1 * (m.weight / aw))).sum
    x2 := (ms.map (fun m => m.box.x2 * (m.weight / aw))).sum
    y2 := (ms.map (fun m => m.box.y2 * (m.weight / aw))).sum }

/-- The body of the per-label loop of `apply` (lines 172-198): aggregate
the cluster, test `valid_box = aggregated_w > dbscan_confidence_threshold
and mean_box_h > minimum_bounding_box_height`, and emit a `KittiBbox`
exactly when the test passes (`mean_box_h` is `mean_bbox[3] -
mean_bbox[1]`, i.e. y2 - y1; the unused locals `n`, `w_max`, `w_min`,
`mean_box_w`, `bbox_area` of the source do not affect the output). -/
def clusterDetection (className : String) (cw : ClasswiseConfig)
    (ms : List ClusterMember) : Option KittiBbox :=
  let aw := aggregated_w ms
  let mb := mean_bbox ms
  let mean_box_h := mb.y2 - mb.y1
  if aw > cw.dbscan_config.dbscan_confidence_threshold ∧
      mean_box_h > cw.minimum_bounding_box_height then
    some { category := className, bbox := mb, confidence_score := aw }
  else
    none

/-- `w = classwise_covs[labeling == label]` zipped with
`b = classwise_bboxes[labeling == label]`: the members of one cluster,
selected by boolean mask over three equal-length aligned arrays. -/
def membersOfLabel : List ℚ → List Box → List Int → Int → List ClusterMember
  | w :: ws, b :: bs, l :: ls, lab =>
    if l = lab then
      { weight := w, box := b } :: membersOfLabel ws bs ls lab
    else
      membersOfLabel ws bs ls lab
  | _, _, _, _ => []

/-- Sorted insertion, for `np.unique`'s ascending order. -/
def insertSorted (x : Int) : List Int → List Int
  | [] => [x]
  | y :: ys => if x ≤ y then x :: y :: ys else y :: insertSorted x ys

/-- Insertion sort on labels (ascending). -/
def sortLabels : List Int → List Int
  | [] => []
  | x :: xs => insertSorted x (sortLabels xs)

/-- `labels = np.unique(labeling[labeling >= 0])`: the sorted distinct
non-negative cluster labels (label -1 marks noise and is discarded). -/
def uniqueLabels (labeling : List Int) : List Int :=
  (sortLabels (labeling.filter (fun l => 0 ≤ l))).dedup

/-- The per-label loop of `apply` (lines 171-198) over one class of one
image: for each distinct non-negative label, aggregate its cluster and
keep the valid boxes (`clustered_boxes`). -/
def classDetections (className : String) (cw : ClasswiseConfig)
    (classwise_covs : List ℚ) (classwise_bboxes : List Box)
    (labeling : List Int) : List KittiBbox :=
  (uniqueLabels labeling).filterMap
    (fun label =>
      clusterDetection className cw
        (membersOfLabel classwise_covs classwise_bboxes labeling label))

/-! ### Per-class and per-image processing (`apply`, lines 147-200) -/

/-- Numpy fancy indexing `xs[indices]`: the elements of `xs` at the given
positions, in index order (out-of-range positions select nothing). -/
def selectIndices {α : Type} (xs : List α) (idxs : List ℕ) : List α :=
  idxs.filterMap (fun i => xs[i]?)

/-- A DBSCAN oracle standing for the external
`sklearn.cluster.DBSCAN.fit_predict` call on the pairwise IoU-distance
matrix: given the class name (each class has its own fitted `dbscan`
element), the selected coverage weights and boxes, it returns the
per-candidate cluster labeling (label -1 = noise). -/
def DbscanOracle : Type :=
  String → List ℚ → List Box → List Int

/-- The body of the class loop of `apply` (lines 153-199) for one
`class_idx`: select the thresholded coverages, `continue` (yield nothing)
when the selection is empty, otherwise select the matching boxes, run the
class's DBSCAN element, and aggregate the labeled clusters. `covs` and
`bboxes` are the one-image slices `covs[class_idx, :, :].flatten()` and
`bboxes[4*class_idx:4*class_idx+4]` reshaped to per-cell boxes. -/
def processClass (classes : List String) (ccc : String → ClasswiseConfig)
    (dbscanFit : DbscanOracle) (covs : List (List ℚ))
    (bboxes : List (List Box)) (indices : List (List ℕ))
    (class_idx : ℕ) : List KittiBbox :=
  let className := classes.getD class_idx ""
  let cw := ccc className
  let classwise_covs := selectIndices (covs.getD class_idx []) (indices.getD class_idx [])
  if classwise_covs.isEmpty then
    []
  else
    let classwise_bboxes :=
      selectIndices (bboxes.getD class_idx []) (indices.getD class_idx [])
    let labeling := dbscanFit className classwise_covs classwise_bboxes
    classDetections className cw classwise_covs classwise_bboxes labeling

/-- The class loop of `apply` as written in the source (line 151):
`for class_idx in [0]:` — only class index 0 is ever processed,
the general loop `for class_idx in range(len(self.classes))` being
commented out (line 152). `imagewise_boxes` is the concatenation of the
classwise `clustered_boxes`. -/
def processImage (classes : List String) (ccc : String → ClasswiseConfig)
    (dbscanFit : DbscanOracle) (covs : List (List ℚ))
    (bboxes : List (List Box)) (indices : List (List ℕ)) : List KittiBbox :=
  (([0] : List ℕ).map
    (processClass classes ccc dbscanFit covs bboxes indices)).flatten

/-- The class loop as the spec words it (§4.4-§4.6 and §9: thresholding,
clustering and aggregation run for each class of the configured class
list) — the intended general loop `for class_idx in
range(len(self.classes))`, for comparison with `processImage`. -/
def processImageSpec (classes : List String) (ccc : String → ClasswiseConfig)
    (dbscanFit : DbscanOracle) (covs : List (List ℚ))
    (bboxes : List (List Box)) (indices : List (List ℕ)) : List KittiBbox :=
  ((List.range classes.length).map
    (processClass classes ccc dbscanFit covs bboxes indices)).flatten

/-! ### Thresholding, rendering loop and `apply` -/

/-- Modelled from the spec: `thresholded_indices`
(`tao_triton/python/postprocessing/utils.py`, not in the sources at
hand). Spec §4.3: for each image and class, flattens the coverage grid
and returns the indices of the cells whose score strictly exceeds the
class's coverage threshold. -/
def thresholded_indices (cov : List (List (List ℚ)))
    (classes : List String) (thresholds : String → ℚ) :
    List (List (List ℕ)) :=
  cov.map (fun image =>
    image.enum.map (fun p =>
      p.2.enum.filterMap (fun q =>
        if q.2 > thresholds (classes.getD p.1 "") then some q.1 else none)))

/-- Character-list worker for `basename`: keep the characters seen since
the last path separator. -/
def basenameChars : List Char → List Char → List Char
  | [], acc => acc.reverse
  | c :: cs, acc =>
    if c = '/' then basenameChars cs [] else basenameChars cs (c :: acc)

/-- `os.path.basename`: the final path component (the part of the path
after the last `/`). -/
def basename (s : String) : String :=
  ⟨basenameChars s.data []⟩

/-- Modelled from the spec: `return_bbox_info`
(`tao_triton/python/postprocessing/utils.py`, not in the sources at
hand). Spec §6: the per-image output record carries the image's
detections `{class, box, confidence}` — the fields a `KittiBbox` of this
embedding already holds — so the conversion is the identity on the
per-image detection list. -/
def return_bbox_info (_frame : Frame) (boxes : List KittiBbox) :
    List KittiBbox :=
  boxes

/-- The render loop of `apply` (lines 205-214), one step per `image_idx`:
stop (`break`) as soon as `current_idx = (this_id-1)*batch_size +
image_idx` reaches the number of frames, otherwise emit
`[final_bboxes, filename]` for the current frame. `base` is
`(this_id-1)*batch_size`; the first argument counts the remaining loop
iterations, the second is `image_idx`. -/
def renderAux (batchwise : List (List KittiBbox)) (frames : List Frame)
    (base : ℕ) : ℕ → ℕ → List (List KittiBbox × String)
  | 0, _ => []
  | rem + 1, i =>
    if h : base + i < frames.length then
      (return_bbox_info (frames.get ⟨base + i, h⟩) (batchwise.getD i []),
        basename (frames.get ⟨base + i, h⟩).image_path) ::
        renderAux batchwise frames base rem (i + 1)
    else
      []

/-- `for image_idx in range(self.batch_size): ...` of `apply` with the
break-at-`len(self.frames)` behavior. -/
def renderLoop (batchwise : List (List KittiBbox)) (frames : List Frame)
    (batch_size this_id : ℕ) : List (List KittiBbox × String) :=
  renderAux batchwise frames ((this_id - 1) * batch_size) batch_size 0

/-- `shape[1]` of the coverage tensor: the size of its class dimension. -/
def covClassDim (cov : List (List (List ℚ))) : ℕ :=
  (cov.headD []).length

/-- `batchwise_boxes` of `apply` (lines 146-200): one `imagewise_boxes`
list per image of the batch, in batch order. `absBbox` is the output of
the external `denormalize_bounding_bboxes` (the denormalized absolute
boxes per image, class and cell). -/
def batchwiseBoxes (classes : List String) (ccc : String → ClasswiseConfig)
    (dbscanFit : DbscanOracle) (thresholds : String → ℚ)
    (cov : List (List (List ℚ))) (absBbox : List (List (List Box))) :
    List (List KittiBbox) :=
  (thresholded_indices cov classes thresholds).enum.map (fun p =>
    processImage classes ccc dbscanFit (cov.getD p.1 [])
      (absBbox.getD p.1 []) p.2)

/-- `TrafficCamNetPostprocessor.apply` (lines 107-215): assert that the
configured class count equals the class dimension of the coverage tensor
(lines 130-134, a fatal error on mismatch), then threshold, cluster and
aggregate each image of the batch, and run the render loop. -/
def applyPost (classes : List String) (ccc : String → ClasswiseConfig)
    (dbscanFit : DbscanOracle) (thresholds : String → ℚ)
    (cov : List (List (List ℚ))) (absBbox : List (List (List Box)))
    (frames : List Frame) (batch_size this_id : ℕ) :
    Except String (List (List KittiBbox × String)) :=
  if classes.length = covClassDim cov then
    .ok (renderLoop (batchwiseBoxes classes ccc dbscanFit thresholds cov absBbox)
      frames batch_size this_id)
  else
    .error ("Number of classes " ++ toString classes.length ++
      " != number of dimensions in the output_cov/Sigmoid: " ++
      toString (covClassDim cov))

/-! ### Config loading and `configure` (`load_clustering_config`,
`TrafficCamNetPostprocessor.__init__` / `configure`) -/

/-- `_load_from_file` inside `load_clustering_config` (lines 47-51):
raise `IOError("Specfile not found at: ...")` when the file does not
exist, otherwise read and parse it. The filesystem is the predicate
`fsExists` (standing for `os.path.exists`) and the parser is `readParse`
(standing for reading the file and `merge_text_proto`). -/
def load_from_file (fsExists : String → Bool)
    (readParse : String → PostprocessingConfig) (filename : String) :
    Except String PostprocessingConfig :=
  if fsExists filename then
    .ok (readParse filename)
  else
    .error ("Specfile not found at: " ++ filename)

/-- `load_clustering_config` (lines 44-53). -/
def load_clustering_config (fsExists : String → Bool)
    (readParse : String → PostprocessingConfig) (config : String) :
    Except String PostprocessingConfig :=
  load_from_file fsExists readParse config

/-- One per-class dbscan element built by `configure`
(`dbscan(eps=..., min_samples=...)`). -/
structure DbscanElem where
  eps : ℚ
  min_samples : ℚ
deriving DecidableEq, Repr

/-- The three classwise dictionaries `configure` builds
(`dbscan_elements`, `coverage_thresholds`, `box_color`). -/
structure ConfiguredState where
  dbscan_elements : List (String × DbscanElem)
  coverage_thresholds : List (String × ℚ)
  box_color : List (String × BboxColor)
deriving DecidableEq, Repr

/-- `TrafficCamNetPostprocessor.configure` (lines 89-105): for each class
of the run's class list, look it up in `classwise_clustering_config`;
raise `KeyError("Cannot find class name ...")` on the first class that is
absent, otherwise record its dbscan element, coverage threshold and box
color. -/
def configure (classes : List String)
    (ccc : List (String × ClasswiseConfig)) :
    Except String ConfiguredState :=
  match classes with
  | [] => .ok ⟨[], [], []⟩
  | c :: rest =>
    match ccc.lookup c with
    | none => .error ("Cannot find class name " ++ c)
    | some cfg =>
      (configure rest ccc).map (fun st =>
        ⟨(c, ⟨cfg.dbscan_config.dbscan_eps,
              cfg.dbscan_config.dbscan_min_samples⟩) :: st.dbscan_elements,
         (c, cfg.coverage_threshold) :: st.coverage_thresholds,
         (c, cfg.bbox_color) :: st.box_color⟩)

/-- The constructed postprocessor: the state `__init__` leaves behind
when it succeeds (the fields the claims consult). -/
structure Processor where
  batch_size : ℕ
  frames : List Frame
  classes : List String
  pproc_config : PostprocessingConfig
  configured : ConfiguredState
deriving Repr

/-- `TrafficCamNetPostprocessor.__init__` (lines 59-87): load the
clustering config first (line 75) — a load failure aborts construction
before anything else happens — then run `configure` (line 87); a lookup
failure likewise aborts construction, so no postprocessor exists and no
tensor processing (`apply`) can ever run. -/
def initProcessor (fsExists : String → Bool)
    (readParse : String → PostprocessingConfig) (batch_size : ℕ)
    (frames : List Frame) (classes : List String)
    (postprocessing_config : String) : Except String Processor :=
  match load_clustering_config fsExists readParse postprocessing_config with
  | .error e => .error e
  | .ok pproc =>
    match configure classes pproc.classwise_clustering_config with
    | .error e => .error e
    | .ok st => .ok ⟨batch_size, frames, classes, pproc, st⟩

/-! ### The model-class `predict` wrappers
(`model_client/trafficcamnet_model_class.py`,
`model_client/lpd_model_class.py`, and
`triton_client/trafficcamnet_model_class.py`, lines 35-43 — the three
`predict` methods are textually identical) -/

/-- The error record `{'HTTPStatus': 400, 'error': "File Path does not
exist!"}`. -/
structure ErrorRecord where
  httpStatus : ℕ
  error : String
deriving DecidableEq, Repr

/-- The value a `predict` call returns: either the result of the inner
`self._predict(file_path)` inference call, or the error-record list. -/
inductive PredictOutput (α : Type) where
  | inference : α → PredictOutput α
  | failure : List ErrorRecord → PredictOutput α
deriving DecidableEq, Repr

/-- `predict` (lines 35-43 of the three model-class files): when the
path exists, return `self._predict(file_path)`; otherwise return the
single-element list `[{'HTTPStatus': 400, 'error': "File Path does not
exist!"}]`. `fsExists` stands for `os.path.exists` and `inner` for the
`_predict` method. -/
def predictMethod {α : Type} (fsExists : String → Bool)
    (inner : String → α) (file_path : String) : PredictOutput α :=
  if fsExists file_path then
    .inference (inner file_path)
  else
    .failure [⟨400, "File Path does not exist!"⟩]

/-! ### Concrete fixtures used by witnesses and counterexample runs -/

/-- A concrete classwise configuration (eps 0.5, min_samples 1, cluster
confidence threshold 0.1, coverage threshold 0.1, min box height 1). -/
def cwDefault : ClasswiseConfig :=
  { dbscan_config :=
      { dbscan_eps := 1/2, dbscan_min_samples := 1,
        dbscan_confidence_threshold := 1/10 }
    coverage_threshold := 1/10
    minimum_bounding_box_height := 1
    bbox_color := ⟨0, 255, 0⟩ }

/-- A concrete DBSCAN oracle that puts every candidate into cluster 0. -/
def zeroOracle : DbscanOracle := fun _ covs _ => covs.map (fun _ => 0)

/-- Five frames, for the partial-batch scenario @(batch_size 8). -/
def framesFive : List Frame :=
  [⟨"f0.png"⟩, ⟨"f1.png"⟩, ⟨"f2.png"⟩, ⟨"f3.png"⟩, ⟨"f4.png"⟩]

/-- Two classes, for the single-class-hardcoding run. -/
def classesTwo : List String := ["car", "bicycle"]

/-- A one-image coverage tensor with one cell per class, both above the
0.1 coverage threshold. -/
def covTwo : List (List (List ℚ)) := [[[9/10], [9/10]]]

/-- The matching denormalized boxes: a valid car box and a valid
bicycle box. -/
def bbTwo : List (List (List Box)) := [[[⟨10, 10, 50, 50⟩], [⟨20, 20, 60, 60⟩]]]

/-! ## Theorems -/

/-- Claim C2: for every DBSCAN cluster, the aggregated confidence equals
the sum of the member confidence weights, the aggregated box equals the
per-coordinate weighted average of member boxes using weights normalized
by that sum, and a Detection is created if and only if the aggregated
weight is strictly greater than the class's
`dbscan_confidence_threshold` and the aggregated box height (y2 - y1)
is strictly greater than the class's `minimum_bounding_box_height`. -/
theorem C2_cluster_aggregation (className : String) (cw : ClasswiseConfig)
    (ms : List ClusterMember) :
    (∀ d, clusterDetection className cw ms = some d →
      d.confidence_score = (ms.map (fun m => m.weight)).sum ∧
      d.bbox.x1 = (ms.map (fun m =>
        m.box.x1 * (m.weight / (ms.map (fun m => m.weight)).sum))).sum ∧
      d.bbox.y1 = (ms.map (fun m =>
        m.box.y1 * (m.weight / (ms.map (fun m => m.weight)).sum))).sum ∧
      d.bbox.x2 = (ms.map (fun m =>
        m.box.x2 * (m.weight / (ms.map (fun m => m.weight)).sum))).sum ∧
      d.bbox.y2 = (ms.map (fun m =>
        m.box.y2 * (m.weight / (ms.map (fun m => m.weight)).sum))).sum) ∧
    ((∃ d, clusterDetection className cw ms = some d) ↔
      ((ms.map (fun m => m.weight)).sum >
          cw.dbscan_config.dbscan_confidence_threshold ∧
        (ms.map (fun m =>
            m.box.y2 * (m.weight / (ms.map (fun m => m.weight)).sum))).sum -
          (ms.map (fun m =>
            m.box.y1 * (m.weight / (ms.map (fun m => m.weight)).sum))).sum >
          cw.minimum_bounding_box_height)) := by
  constructor
  · intro d hd
    simp only [clusterDetection] at hd
    split at hd
    · rename_i hcond
      cases hd
      simp [aggregated_w, mean_bbox]
    · simp at hd
  · constructor
    · rintro ⟨d, hd⟩
      simp only [clusterDetection] at hd
      split at hd
      · rename_i hcond
        simpa [aggregated_w, mean_bbox] using hcond
      · simp at hd
    · intro hcond
      have hc : aggregated_w ms > cw.dbscan_config.dbscan_confidence_threshold ∧
          (mean_bbox ms).y2 - (mean_bbox ms).y1 >
            cw.minimum_bounding_box_height := by
        simpa [aggregated_w, mean_bbox] using hcond
      exact ⟨_, by simp only [clusterDetection]; rw [if_pos hc]⟩

/-- Witness for C2 at a concrete one-member cluster. -/
theorem C2_witness :
    (⟨"car", ⟨10, 10, 50, 50⟩, 9/10⟩ : KittiBbox).confidence_score =
      (([⟨9/10, ⟨10, 10, 50, 50⟩⟩] : List ClusterMember).map
        (fun m => m.weight)).sum ∧
    (⟨"car", ⟨10, 10, 50, 50⟩, 9/10⟩ : KittiBbox).bbox.x1 =
      (([⟨9/10, ⟨10, 10, 50, 50⟩⟩] : List ClusterMember).map (fun m =>
        m.box.x1 * (m.weight /
          (([⟨9/10, ⟨10, 10, 50, 50⟩⟩] : List ClusterMember).map
            (fun m => m.weight)).sum))).sum ∧
    (⟨"car", ⟨10, 10, 50, 50⟩, 9/10⟩ : KittiBbox).bbox.y1 =
      (([⟨9/10, ⟨10, 10, 50, 50⟩⟩] : List ClusterMember).map (fun m =>
        m.box.y1 * (m.weight /
          (([⟨9/10, ⟨10, 10, 50, 50⟩⟩] : List ClusterMember).map
            (fun m => m.weight)).sum))).sum ∧
    (⟨"car", ⟨10, 10, 50, 50⟩, 9/10⟩ : KittiBbox).bbox.x2 =
      (([⟨9/10, ⟨10, 10, 50, 50⟩⟩] : List ClusterMember).map (fun m =>
        m.box.x2 * (m.weight /
          (([⟨9/10, ⟨10, 10, 50, 50⟩⟩] : List ClusterMember).map
            (fun m => m.weight)).sum))).sum ∧
    (⟨"car", ⟨10, 10, 50, 50⟩, 9/10⟩ : KittiBbox).bbox.y2 =
      (([⟨9/10, ⟨10, 10, 50, 50⟩⟩] : List ClusterMember).map (fun m =>
        m.box.y2 * (m.weight /
          (([⟨9/10, ⟨10, 10, 50, 50⟩⟩] : List ClusterMember).map
            (fun m => m.weight)).sum))).sum :=
  (C2_cluster_aggregation "car" cwDefault [⟨9/10, ⟨10, 10, 50, 50⟩⟩]).1
    ⟨"car", ⟨10, 10, 50, 50⟩, 9/10⟩
    (by norm_num [clusterDetection, aggregated_w, mean_bbox, cwDefault])

/-- Claim C3: `configure` fails with the `KeyError`-style lookup error
exactly when some class of the run's class list is absent from the loaded
classwise clustering configuration map (so it succeeds when every class
is present); and whenever a class is missing, `__init__` fails too, so no
postprocessor is constructed. -/
theorem C3_configure_lookup (classes : List String)
    (ccc : List (String × ClasswiseConfig)) :
    ((∃ e, configure classes ccc = Except.error e) ↔
      ∃ c ∈ classes, ccc.lookup c = none) ∧
    (∀ (fsExists : String → Bool)
        (readParse : String → PostprocessingConfig) (bs : ℕ)
        (frames : List Frame) (pc : String),
      fsExists pc = true →
      (readParse pc).classwise_clustering_config = ccc →
      (∃ c ∈ classes, ccc.lookup c = none) →
      ∃ e, initProcessor fsExists readParse bs frames classes pc =
        Except.error e) := by
  have main : (∃ e, configure classes ccc = Except.error e) ↔
      ∃ c ∈ classes, ccc.lookup c = none := by
    induction classes with
    | nil => simp [configure]
    | cons c rest ih =>
      simp only [configure]
      cases hc : ccc.lookup c with
      | none =>
        simp only [List.mem_cons]
        exact ⟨fun _ => ⟨c, Or.inl rfl, hc⟩, fun _ => ⟨_, rfl⟩⟩
      | some cfg =>
        cases hr : configure rest ccc with
        | error e =>
          simp only [Except.map_error, List.mem_cons]
          constructor
          · intro _
            obtain ⟨c₂, hmem, hnone⟩ := ih.mp ⟨e, hr⟩
            exact ⟨c₂, Or.inr hmem, hnone⟩
          · intro _
            exact ⟨e, rfl⟩
        | ok st =>
          simp only [Except.map_ok, List.mem_cons]
          constructor
          · rintro ⟨e, he⟩
            cases he
          · rintro ⟨c₂, hmem, hnone⟩
            rcases hmem with rfl | hmem
            · rw [hc] at hnone
              cases hnone
            · obtain ⟨e, he⟩ := ih.mpr ⟨c₂, hmem, hnone⟩
              rw [hr] at he
              cases he
  refine ⟨main, ?_⟩
  intro fsExists readParse bs frames pc hfs hccc hmiss
  obtain ⟨e, he⟩ := main.mpr hmiss
  refine ⟨e, ?_⟩
  simp only [initProcessor, load_clustering_config, load_from_file, hfs,
    if_true, hccc, he]

/-- Witness for C3: a missing class makes `configure` fail. -/
theorem C3_witness : ∃ e, configure ["car"] [] = Except.error e :=
  (C3_configure_lookup ["car"] []).1.mpr ⟨"car", List.mem_singleton.mpr rfl, rfl⟩

/-- Claim C4: `load_clustering_config` raises the
`IOError`-style load error when the spec file does not exist, and
`__init__` then fails too: no postprocessor exists, so no tensor
processing can ever run (the run aborts with no partial processing). -/
theorem C4_missing_specfile (fsExists : String → Bool)
    (readParse : String → PostprocessingConfig) (bs : ℕ)
    (frames : List Frame) (classes : List String) (pc : String)
    (h : fsExists pc = false) :
    load_clustering_config fsExists readParse pc =
      Except.error ("Specfile not found at: " ++ pc) ∧
    initProcessor fsExists readParse bs frames classes pc =
      Except.error ("Specfile not found at: " ++ pc) := by
  constructor
  · simp [load_clustering_config, load_from_file, h]
  · simp [initProcessor, load_clustering_config, load_from_file, h]

/-- Witness for C4 on a concrete always-empty filesystem. -/
theorem C4_witness :
    load_clustering_config (fun _ => false) (fun _ => ⟨16, []⟩) "spec.txt" =
      Except.error ("Specfile not found at: " ++ "spec.txt") ∧
    initProcessor (fun _ => false) (fun _ => ⟨16, []⟩) 8 [] ["car"] "spec.txt" =
      Except.error ("Specfile not found at: " ++ "spec.txt") :=
  C4_missing_specfile (fun _ => false) (fun _ => ⟨16, []⟩) 8 [] ["car"]
    "spec.txt" rfl

/-- Claim C5: `apply` fails with its fatal shape-mismatch assertion if
and only if the configured class count differs from the size of the
class dimension of the coverage tensor; when they are equal it proceeds
and returns the rendered per-image outputs. -/
theorem C5_shape_assert (classes : List String)
    (ccc : String → ClasswiseConfig) (dbscanFit : DbscanOracle)
    (thresholds : String → ℚ) (cov : List (List (List ℚ)))
    (absBbox : List (List (List Box))) (frames : List Frame)
    (bs tid : ℕ) :
    ((∃ e, applyPost classes ccc dbscanFit thresholds cov absBbox
        frames bs tid = Except.error e) ↔
      classes.length ≠ covClassDim cov) ∧
    (classes.length = covClassDim cov →
      applyPost classes ccc dbscanFit thresholds cov absBbox frames bs tid =
        Except.ok (renderLoop
          (batchwiseBoxes classes ccc dbscanFit thresholds cov absBbox)
          frames bs tid)) := by
  unfold applyPost
  split
  · rename_i heq
    simp [heq]
  · rename_i hne
    simp [hne]

/-- Witness for C5: a 1-class run on a 2-class coverage tensor fails;
the matching 1-class tensor passes. -/
theorem C5_witness :
    (∃ e, applyPost ["car"] (fun _ => cwDefault) zeroOracle (fun _ => 1/10)
      [[[(9:ℚ)/10], [(1:ℚ)/2]]] [] [] 8 1 = Except.error e) ∧
    applyPost ["car"] (fun _ => cwDefault) zeroOracle (fun _ => 1/10)
      [[[(9:ℚ)/10]]] [[[⟨10, 10, 50, 50⟩]]] [⟨"img0.png"⟩] 1 1 =
      Except.ok (renderLoop
        (batchwiseBoxes ["car"] (fun _ => cwDefault) zeroOracle
          (fun _ => 1/10) [[[(9:ℚ)/10]]] [[[⟨10, 10, 50, 50⟩]]])
        [⟨"img0.png"⟩] 1 1) :=
  ⟨(C5_shape_assert ["car"] (fun _ => cwDefault) zeroOracle (fun _ => 1/10)
      [[[(9:ℚ)/10], [(1:ℚ)/2]]] [] [] 8 1).1.mpr (by decide),
   (C5_shape_assert ["car"] (fun _ => cwDefault) zeroOracle (fun _ => 1/10)
      [[[(9:ℚ)/10]]] [[[⟨10, 10, 50, 50⟩]]] [⟨"img0.png"⟩] 1 1).2 (by decide)⟩

/-- Claim C10: for every input path, `predict` returns the single-element
list `[{'HTTPStatus': 400, 'error': 'File Path does not exist!'}]` when
the path does not exist on the filesystem, and invokes the inner
inference `_predict` exactly when the path exists (the function is total:
no exception escapes for a missing path). -/
theorem C10_predict_path_check {α : Type} (fsExists : String → Bool)
    (inner : String → α) (p : String) :
    (fsExists p = false →
      predictMethod fsExists inner p =
        PredictOutput.failure [⟨400, "File Path does not exist!"⟩]) ∧
    (fsExists p = true →
      predictMethod fsExists inner p = PredictOutput.inference (inner p)) := by
  constructor <;> intro h <;> simp [predictMethod, h]

/-- Witness for C10 on concrete filesystems. -/
theorem C10_witness :
    predictMethod (fun _ => false) (fun _ : String => (0 : ℕ)) "/missing" =
      PredictOutput.failure [⟨400, "File Path does not exist!"⟩] ∧
    predictMethod (fun _ => true) (fun _ : String => (0 : ℕ)) "/present" =
      PredictOutput.inference 0 :=
  ⟨(C10_predict_path_check (fun _ => false) (fun _ => 0) "/missing").1 rfl,
   (C10_predict_path_check (fun _ => true) (fun _ => 0) "/present").2 rfl⟩

/-- The render loop emits one entry per remaining frame, up to the
iteration budget: its length is `min rem (frames.length - (base + i))`. -/
theorem renderAux_length (batchwise : List (List KittiBbox))
    (frames : List Frame) (base : ℕ) :
    ∀ rem i, (renderAux batchwise frames base rem i).length =
      min rem (frames.length - (base + i)) := by
  intro rem
  induction rem with
  | zero => intro i; simp [renderAux]
  | succ r ih =>
    intro i
    unfold renderAux
    split
    · rename_i h
      simp only [List.length_cons, ih (i + 1)]
      omega
    · rename_i h
      simp only [List.length_nil]
      omega

/-- The j-th entry the render loop emits is built from frame
`base + i + j` and the j-th `batchwise_boxes` slot from `i`. -/
theorem renderAux_getD (batchwise : List (List KittiBbox))
    (frames : List Frame) (base : ℕ) :
    ∀ rem i j, j < (renderAux batchwise frames base rem i).length →
      (renderAux batchwise frames base rem i).getD j ([], "") =
        (return_bbox_info (frames.getD (base + i + j) ⟨""⟩)
          (batchwise.getD (i + j) []),
         basename ((frames.getD (base + i + j) ⟨""⟩).image_path)) := by
  intro rem
  induction rem with
  | zero => intro i j hj; simp [renderAux] at hj
  | succ r ih =>
    intro i j hj
    unfold renderAux at hj ⊢
    by_cases h : base + i < frames.length
    · rw [dif_pos h] at hj ⊢
      cases j with
      | zero =>
        simp only [List.getD_cons_zero, Nat.add_zero]
        rw [List.getD_eq_getElem frames ⟨""⟩ h]
        rfl
      | succ k =>
        simp only [List.getD_cons_succ]
        rw [ih (i + 1) k (by simpa using hj)]
        have h1 : base + (i + 1) + k = base + i + (k + 1) := by omega
        have h2 : i + 1 + k = i + (k + 1) := by omega
        rw [h1, h2]
    · rw [dif_neg h] at hj
      simp at hj

/-- Claim C7: when the final batch is partial, `apply` emits exactly one
per-image output entry for each available frame (its output length is
`min batch_size (remaining frames)`) and none beyond the frame count,
and output position `j` corresponds to frame `(this_id-1)*batch_size + j`
of the batch — e.g. with batch_size 8 and 5 remaining frames, exactly 5
per-image outputs are produced. -/
theorem C7_partial_batch (classes : List String)
    (ccc : String → ClasswiseConfig) (dbscanFit : DbscanOracle)
    (thresholds : String → ℚ) (cov : List (List (List ℚ)))
    (absBbox : List (List (List Box))) (frames : List Frame) (bs tid : ℕ)
    (hok : classes.length = covClassDim cov) :
    ∃ out, applyPost classes ccc dbscanFit thresholds cov absBbox frames
        bs tid = Except.ok out ∧
      out.length = min bs (frames.length - (tid - 1) * bs) ∧
      ∀ j, j < out.length →
        out.getD j ([], "") =
          (return_bbox_info (frames.getD ((tid - 1) * bs + j) ⟨""⟩)
            ((batchwiseBoxes classes ccc dbscanFit thresholds cov
              absBbox).getD j []),
           basename ((frames.getD ((tid - 1) * bs + j) ⟨""⟩).image_path)) := by
  refine ⟨renderLoop (batchwiseBoxes classes ccc dbscanFit thresholds cov
    absBbox) frames bs tid, ?_, ?_, ?_⟩
  · simp [applyPost, hok]
  · unfold renderLoop
    rw [renderAux_length]
    simp
  · intro j hj
    unfold renderLoop at hj ⊢
    rw [renderAux_getD _ _ _ _ _ _ hj]
    simp

/-- Witness for C7: batch_size 8 with 5 remaining frames produces
exactly 5 per-image outputs. -/
theorem C7_witness :
    ∃ out, applyPost [] (fun _ => cwDefault) zeroOracle (fun _ => 0) [] []
        framesFive 8 1 = Except.ok out ∧ out.length = 5 := by
  obtain ⟨out, h1, h2, _⟩ := C7_partial_batch [] (fun _ => cwDefault)
    zeroOracle (fun _ => 0) [] [] framesFive 8 1 rfl
  exact ⟨out, h1, by rw [h2]; norm_num [framesFive]⟩

/-- `batchwise_boxes` entry `j` is exactly image `j`'s own
`imagewise_boxes`: each image of the batch is processed independently
from its own slices. -/
theorem batchwiseBoxes_getD (classes : List String)
    (ccc : String → ClasswiseConfig) (dbscanFit : DbscanOracle)
    (thresholds : String → ℚ) (cov : List (List (List ℚ)))
    (absBbox : List (List (List Box))) (j : ℕ) (hj : j < cov.length) :
    (batchwiseBoxes classes ccc dbscanFit thresholds cov absBbox).getD j [] =
      processImage classes ccc dbscanFit (cov.getD j []) (absBbox.getD j [])
        ((thresholded_indices cov classes thresholds).getD j []) := by
  unfold batchwiseBoxes
  have hlen : (thresholded_indices cov classes thresholds).length =
      cov.length := by
    simp [thresholded_indices]
  have h1 : j < ((thresholded_indices cov classes thresholds).enum.map
      (fun p => processImage classes ccc dbscanFit (cov.getD p.1 [])
        (absBbox.getD p.1 []) p.2)).length := by
    simpa [hlen] using hj
  rw [List.getD_eq_getElem _ _ h1, List.getElem_map, List.getElem_enum]
  congr 1
  rw [List.getD_eq_getElem _ _ (by simpa [hlen] using hj)]

/-- Claim C6: for any (image, class) pair whose thresholded index set is
empty, `apply` yields zero detections for that class and image
(the `continue` branch), raises no error, and every image of the batch,
this one included, is still processed from its own slices. -/
theorem C6_empty_candidates (classes : List String)
    (ccc : String → ClasswiseConfig) (dbscanFit : DbscanOracle)
    (thresholds : String → ℚ) (cov : List (List (List ℚ)))
    (absBbox : List (List (List Box))) (frames : List Frame)
    (bs tid i c : ℕ) (hok : classes.length = covClassDim cov)
    (hempty : ((thresholded_indices cov classes thresholds).getD i
      []).getD c [] = []) :
    processClass classes ccc dbscanFit (cov.getD i []) (absBbox.getD i [])
        ((thresholded_indices cov classes thresholds).getD i []) c = [] ∧
    (∃ out, applyPost classes ccc dbscanFit thresholds cov absBbox frames
      bs tid = Except.ok out) ∧
    (∀ j, j < cov.length →
      (batchwiseBoxes classes ccc dbscanFit thresholds cov absBbox).getD
          j [] =
        processImage classes ccc dbscanFit (cov.getD j [])
          (absBbox.getD j [])
          ((thresholded_indices cov classes thresholds).getD j [])) := by
  refine ⟨?_, ⟨renderLoop (batchwiseBoxes classes ccc dbscanFit thresholds
      cov absBbox) frames bs tid, by simp [applyPost, hok]⟩,
    fun j hj => batchwiseBoxes_getD classes ccc dbscanFit thresholds cov
      absBbox j hj⟩
  unfold processClass
  rw [hempty]
  simp [selectIndices]

/-- Witness for C6: a coverage value below the threshold leaves an empty
candidate set; the class yields no detection and `apply` still succeeds. -/
theorem C6_witness :
    processClass ["car"] (fun _ => cwDefault) zeroOracle
        ([[[(1:ℚ)/20]]].getD 0 []) ([[[(⟨10, 10, 50, 50⟩ : Box)]]].getD 0 [])
        ((thresholded_indices [[[(1:ℚ)/20]]] ["car"]
          (fun _ => 1/10)).getD 0 []) 0 = [] ∧
    ∃ out, applyPost ["car"] (fun _ => cwDefault) zeroOracle
        (fun _ => 1/10) [[[(1:ℚ)/20]]] [[[⟨10, 10, 50, 50⟩]]]
        [⟨"img0.png"⟩] 1 1 = Except.ok out := by
  obtain ⟨h1, h2, _⟩ := C6_empty_candidates ["car"] (fun _ => cwDefault)
    zeroOracle (fun _ => 1/10) [[[(1:ℚ)/20]]] [[[⟨10, 10, 50, 50⟩]]]
    [⟨"img0.png"⟩] 1 1 0 0 rfl
    (by norm_num [thresholded_indices, List.enum, List.enumFrom,
      List.filterMap_cons])
  exact ⟨h1, h2⟩

/-- Claim C8: the aggregated confidence of any cluster is at most the
sum of all candidate confidences of the full thresholded candidate set
for that image and class, provided all coverage values are
non-negative (cluster members are a mask-selection of the candidates). -/
theorem C8_cluster_weight_bound (covs : List ℚ) (bxs : List Box)
    (labeling : List Int) (label : Int) (hnn : ∀ w ∈ covs, 0 ≤ w) :
    aggregated_w (membersOfLabel covs bxs labeling label) ≤ covs.sum := by
  induction covs generalizing bxs labeling with
  | nil =>
    cases bxs <;> cases labeling <;> simp [membersOfLabel, aggregated_w]
  | cons w ws ih =>
    have hw : 0 ≤ w := hnn w (List.mem_cons_self _ _)
    have hws : ∀ v ∈ ws, 0 ≤ v := fun v hv => hnn v (List.mem_cons_of_mem _ hv)
    have hsum : 0 ≤ ws.sum := List.sum_nonneg hws
    cases bxs with
    | nil =>
      simp only [membersOfLabel, aggregated_w, List.map_nil, List.sum_nil,
        List.sum_cons]
      linarith
    | cons b bs =>
      cases labeling with
      | nil =>
        simp only [membersOfLabel, aggregated_w, List.map_nil, List.sum_nil,
          List.sum_cons]
        linarith
      | cons l ls =>
        have hrec := ih bs ls hws
        by_cases hl : l = label
        · simp only [membersOfLabel, hl, if_true, aggregated_w,
            List.map_cons, List.sum_cons] at hrec ⊢
          linarith
        · simp only [membersOfLabel, hl, if_false, List.sum_cons]
          exact le_trans hrec (by linarith)

/-- Witness for C8 at a concrete two-candidate set with one selected
member. -/
theorem C8_witness :
    aggregated_w (membersOfLabel [9/10, 1/2] [⟨10, 10, 50, 50⟩,
      ⟨11, 11, 51, 51⟩] [0, 1] 0) ≤ ([9/10, 1/2] : List ℚ).sum :=
  C8_cluster_weight_bound [9/10, 1/2] [⟨10, 10, 50, 50⟩, ⟨11, 11, 51, 51⟩]
    [0, 1] 0 (by
      intro w hw
      simp only [List.mem_cons, List.not_mem_nil, or_false] at hw
      rcases hw with rfl | rfl <;> norm_num)

/-- Normalized weighted sums factor through division by the total
weight: `Σ f(m)·(w(m)/s) = (Σ f(m)·w(m)) / s`. -/
theorem sum_map_mul_div (ms : List ClusterMember) (f : ClusterMember → ℚ)
    (s : ℚ) :
    (ms.map (fun m => f m * (m.weight / s))).sum =
      (ms.map (fun m => f m * m.weight)).sum / s := by
  induction ms with
  | nil => simp
  | cons m rest ih => simp [ih, add_div, mul_div_assoc]

/-- Strict monotonicity of weighted sums: if every member has
non-negative weight, `f < g` pointwise, and the total weight is
positive, then `Σ f·w < Σ g·w`. -/
theorem sum_map_mul_weight_lt (ms : List ClusterMember)
    (f g : ClusterMember → ℚ) (hw : ∀ m ∈ ms, 0 ≤ m.weight)
    (hfg : ∀ m ∈ ms, f m < g m)
    (hpos : 0 < (ms.map (fun m => m.weight)).sum) :
    (ms.map (fun m => f m * m.weight)).sum <
      (ms.map (fun m => g m * m.weight)).sum := by
  induction ms with
  | nil => simp at hpos
  | cons m rest ih =>
    have hwm : 0 ≤ m.weight := hw m (List.mem_cons_self _ _)
    have hwr : ∀ x ∈ rest, 0 ≤ x.weight :=
      fun x hx => hw x (List.mem_cons_of_mem _ hx)
    have hfgr : ∀ x ∈ rest, f x < g x :=
      fun x hx => hfg x (List.mem_cons_of_mem _ hx)
    have hle : (rest.map (fun x => f x * x.weight)).sum ≤
        (rest.map (fun x => g x * x.weight)).sum :=
      List.sum_le_sum (fun x hx =>
        mul_le_mul_of_nonneg_right (le_of_lt (hfgr x hx)) (hwr x hx))
    rcases lt_or_eq_of_le hwm with hpos' | heq
    · have hhead : f m * m.weight < g m * m.weight :=
        mul_lt_mul_of_pos_right (hfg m (List.mem_cons_self _ _)) hpos'
      simp only [List.map_cons, List.sum_cons]
      linarith
    · have hrpos : 0 < (rest.map (fun x => x.weight)).sum := by
        simp only [List.map_cons, List.sum_cons, ← heq, zero_add] at hpos
        exact hpos
      have := ih hwr hfgr hrpos
      simp only [List.map_cons, List.sum_cons, ← heq, mul_zero, zero_add]
      linarith

/-- Validated clusters whose members all satisfy the candidate
invariant `x1 < x2 ∧ y1 < y2` (spec §3) and have non-negative weights
produce strictly ordered aggregated boxes, given a non-negative
cluster-confidence threshold. -/
theorem clusterDetection_strict_box (className : String)
    (cw : ClasswiseConfig) (ms : List ClusterMember) (d : KittiBbox)
    (hthr : 0 ≤ cw.dbscan_config.dbscan_confidence_threshold)
    (hw : ∀ m ∈ ms, 0 ≤ m.weight)
    (hbox : ∀ m ∈ ms, m.box.x1 < m.box.x2 ∧ m.box.y1 < m.box.y2)
    (hdet : clusterDetection className cw ms = some d) :
    d.bbox.x1 < d.bbox.x2 ∧ d.bbox.y1 < d.bbox.y2 := by
  simp only [clusterDetection] at hdet
  split at hdet
  · rename_i hcond
    cases hdet
    have haw : 0 < aggregated_w ms := lt_of_le_of_lt hthr hcond.1
    have hawsum : 0 < (ms.map (fun m => m.weight)).sum := by
      simpa [aggregated_w] using haw
    constructor
    · show (mean_bbox ms).x1 < (mean_bbox ms).x2
      simp only [mean_bbox]
      rw [sum_map_mul_div ms (fun m => m.box.x1),
        sum_map_mul_div ms (fun m => m.box.x2)]
      exact (div_lt_div_iff_of_pos_right haw).mpr
        (sum_map_mul_weight_lt ms _ _ hw (fun m hm => (hbox m hm).1) hawsum)
    · show (mean_bbox ms).y1 < (mean_bbox ms).y2
      simp only [mean_bbox]
      rw [sum_map_mul_div ms (fun m => m.box.y1),
        sum_map_mul_div ms (fun m => m.box.y2)]
      exact (div_lt_div_iff_of_pos_right haw).mpr
        (sum_map_mul_weight_lt ms _ _ hw (fun m hm => (hbox m hm).2) hawsum)
  · cases hdet

/-- A cluster member's weight and box come from the selected candidate
arrays. -/
theorem mem_membersOfLabel :
    ∀ (ws : List ℚ) (bs : List Box) (ls : List Int) (lab : Int)
      (m : ClusterMember), m ∈ membersOfLabel ws bs ls lab →
      m.weight ∈ ws ∧ m.box ∈ bs := by
  intro ws
  induction ws with
  | nil => intro bs ls lab m hm; cases bs <;> cases ls <;> simp [membersOfLabel] at hm
  | cons w ws' ih =>
    intro bs ls lab m hm
    cases bs with
    | nil => cases ls <;> simp [membersOfLabel] at hm
    | cons b bs' =>
      cases ls with
      | nil => simp [membersOfLabel] at hm
      | cons l ls' =>
        by_cases hl : l = lab
        · simp only [membersOfLabel, hl, if_true, List.mem_cons] at hm
          rcases hm with rfl | hm
          · exact ⟨List.mem_cons_self _ _, List.mem_cons_self _ _⟩
          · obtain ⟨h1, h2⟩ := ih bs' ls' lab m hm
            exact ⟨List.mem_cons_of_mem _ h1, List.mem_cons_of_mem _ h2⟩
        · simp only [membersOfLabel, hl, if_false] at hm
          obtain ⟨h1, h2⟩ := ih bs' ls' lab m hm
          exact ⟨List.mem_cons_of_mem _ h1, List.mem_cons_of_mem _ h2⟩

/-- Fancy indexing only selects existing elements. -/
theorem mem_selectIndices {α : Type} (xs : List α) (idxs : List ℕ) (x : α)
    (hx : x ∈ selectIndices xs idxs) : x ∈ xs := by
  simp only [selectIndices, List.mem_filterMap] at hx
  obtain ⟨i, _, hi⟩ := hx
  exact List.getElem?_mem hi

/-- An element of `l.getD i []` belongs to some member list of `l`. -/
theorem mem_getD_sublist {α : Type} (l : List (List α)) (i : ℕ) (x : α)
    (hx : x ∈ l.getD i []) : ∃ s ∈ l, x ∈ s := by
  rcases lt_or_ge i l.length with h | h
  · refine ⟨l[i], List.getElem_mem h, ?_⟩
    rwa [List.getD_eq_getElem _ _ h] at hx
  · rw [List.getD_eq_default _ _ h] at hx
    cases hx

/-- Every detection of one class's output arises as a validated cluster
over the selected candidates of that class. -/
theorem mem_processClass (classes : List String)
    (ccc : String → ClasswiseConfig) (dbscanFit : DbscanOracle)
    (covs : List (List ℚ)) (bboxes : List (List Box))
    (indices : List (List ℕ)) (c : ℕ) (d : KittiBbox)
    (hd : d ∈ processClass classes ccc dbscanFit covs bboxes indices c) :
    ∃ lab, clusterDetection (classes.getD c "") (ccc (classes.getD c ""))
      (membersOfLabel (selectIndices (covs.getD c []) (indices.getD c []))
        (selectIndices (bboxes.getD c []) (indices.getD c []))
        (dbscanFit (classes.getD c "")
          (selectIndices (covs.getD c []) (indices.getD c []))
          (selectIndices (bboxes.getD c []) (indices.getD c []))) lab) =
      some d := by
  simp only [processClass] at hd
  split at hd
  · cases hd
  · simp only [classDetections, List.mem_filterMap] at hd
    obtain ⟨lab, _, h⟩ := hd
    exact ⟨lab, h⟩

/-- The first component of every render-loop entry is one of the
`batchwise_boxes` slots. -/
theorem renderAux_mem_fst (batchwise : List (List KittiBbox))
    (frames : List Frame) (base : ℕ) :
    ∀ rem i entry, entry ∈ renderAux batchwise frames base rem i →
      ∃ j, entry.1 = batchwise.getD j [] := by
  intro rem
  induction rem with
  | zero => intro i entry h; simp [renderAux] at h
  | succ r ih =>
    intro i entry h
    unfold renderAux at h
    split at h
    · rcases List.mem_cons.mp h with rfl | h'
      · exact ⟨i, rfl⟩
      · exact ih (i + 1) entry h'
    · cases h

/-- Claim C9: every detection emitted by the pipeline has a bounding box
with x1 < x2 and y1 < y2, assuming the spec-level facts about the
pipeline inputs that are produced outside `apply`: coverage values are
non-negative (sigmoid outputs, §6), the cluster-confidence thresholds
are non-negative, and the denormalized candidate boxes satisfy the
candidate invariant x1 < x2 ∧ y1 < y2 (spec §3, a guarantee of the
external `denormalize_bounding_bboxes`). -/
theorem C9_emitted_box_ordering (classes : List String)
    (ccc : String → ClasswiseConfig) (dbscanFit : DbscanOracle)
    (thresholds : String → ℚ) (cov : List (List (List ℚ)))
    (absBbox : List (List (List Box))) (frames : List Frame) (bs tid : ℕ)
    (out : List (List KittiBbox × String))
    (entry : List KittiBbox × String) (d : KittiBbox)
    (hthr : ∀ c, 0 ≤ (ccc c).dbscan_config.dbscan_confidence_threshold)
    (hcov : ∀ img ∈ cov, ∀ cls ∈ img, ∀ v ∈ cls, 0 ≤ v)
    (hbb : ∀ img ∈ absBbox, ∀ cls ∈ img, ∀ b ∈ cls,
      b.x1 < b.x2 ∧ b.y1 < b.y2)
    (hout : applyPost classes ccc dbscanFit thresholds cov absBbox frames
      bs tid = Except.ok out)
    (hentry : entry ∈ out) (hd : d ∈ entry.1) :
    d.bbox.x1 < d.bbox.x2 ∧ d.bbox.y1 < d.bbox.y2 := by
  unfold applyPost at hout
  split at hout
  · cases hout
    unfold renderLoop at hentry
    obtain ⟨j, hj⟩ := renderAux_mem_fst _ _ _ _ _ _ hentry
    rw [hj] at hd
    obtain ⟨bwi, hbwi, hdbwi⟩ := mem_getD_sublist _ _ _ hd
    simp only [batchwiseBoxes, List.mem_map] at hbwi
    obtain ⟨p, _, rfl⟩ := hbwi
    have hd0 : d ∈ processClass classes ccc dbscanFit (cov.getD p.1 [])
        (absBbox.getD p.1 []) p.2 0 := by
      simpa [processImage] using hdbwi
    obtain ⟨lab, hlab⟩ := mem_processClass _ _ _ _ _ _ _ _ hd0
    refine clusterDetection_strict_box _ _ _ _ (hthr _) ?_ ?_ hlab
    · intro m hm
      have h1 := mem_selectIndices _ _ _ (mem_membersOfLabel _ _ _ _ _ hm).1
      obtain ⟨cls, hcls, hv⟩ := mem_getD_sublist _ _ _ h1
      obtain ⟨img, himg, hcls2⟩ := mem_getD_sublist _ _ _ hcls
      exact hcov img himg cls hcls2 _ hv
    · intro m hm
      have h1 := mem_selectIndices _ _ _ (mem_membersOfLabel _ _ _ _ _ hm).2
      obtain ⟨cls, hcls, hv⟩ := mem_getD_sublist _ _ _ h1
      obtain ⟨img, himg, hcls2⟩ := mem_getD_sublist _ _ _ hcls
      exact hbb img himg cls hcls2 _ hv
  · cases hout

/-- Witness for C9: the end-to-end single-candidate run emits a
detection whose box is strictly ordered. -/
theorem C9_witness :
    applyPost ["car"] (fun _ => cwDefault) zeroOracle (fun _ => 1/10)
        [[[(9:ℚ)/10]]] [[[⟨10, 10, 50, 50⟩]]] [⟨"img0.png"⟩] 1 1 =
      Except.ok [([⟨"car", ⟨10, 10, 50, 50⟩, 9/10⟩], "img0.png")] ∧
    ((⟨"car", ⟨10, 10, 50, 50⟩, 9/10⟩ : KittiBbox).bbox.x1 <
        (⟨"car", ⟨10, 10, 50, 50⟩, 9/10⟩ : KittiBbox).bbox.x2 ∧
      (⟨"car", ⟨10, 10, 50, 50⟩, 9/10⟩ : KittiBbox).bbox.y1 <
        (⟨"car", ⟨10, 10, 50, 50⟩, 9/10⟩ : KittiBbox).bbox.y2) := by
  have heval : applyPost ["car"] (fun _ => cwDefault) zeroOracle
      (fun _ => 1/10) [[[(9:ℚ)/10]]] [[[⟨10, 10, 50, 50⟩]]]
      [⟨"img0.png"⟩] 1 1 =
      Except.ok [([⟨"car", ⟨10, 10, 50, 50⟩, 9/10⟩], "img0.png")] := by
    norm_num [applyPost, covClassDim, batchwiseBoxes, thresholded_indices,
      List.enum, List.enumFrom, processImage, processClass, selectIndices,
      classDetections, uniqueLabels, sortLabels, insertSorted, zeroOracle,
      membersOfLabel, clusterDetection, aggregated_w, mean_bbox, cwDefault,
      renderLoop, renderAux, return_bbox_info, List.filterMap_cons]
    decide
  refine ⟨heval, ?_⟩
  refine C9_emitted_box_ordering ["car"] (fun _ => cwDefault) zeroOracle
    (fun _ => 1/10) [[[(9:ℚ)/10]]] [[[⟨10, 10, 50, 50⟩]]] [⟨"img0.png"⟩] 1 1
    [([⟨"car", ⟨10, 10, 50, 50⟩, 9/10⟩], "img0.png")]
    ([⟨"car", ⟨10, 10, 50, 50⟩, 9/10⟩], "img0.png")
    ⟨"car", ⟨10, 10, 50, 50⟩, 9/10⟩
    ?_ ?_ ?_ heval (List.mem_singleton.mpr rfl) (List.mem_singleton.mpr rfl)
  · intro c
    norm_num [cwDefault]
  · intro img himg cls hcls v hv
    simp only [List.mem_singleton] at himg
    subst himg
    simp only [List.mem_singleton] at hcls
    subst hcls
    simp only [List.mem_singleton] at hv
    subst hv
    norm_num
  · intro img himg cls hcls b hb
    simp only [List.mem_singleton] at himg
    subst himg
    simp only [List.mem_singleton] at hcls
    subst hcls
    simp only [List.mem_singleton] at hb
    subst hb
    norm_num

set_option maxHeartbeats 2000000 in
/-- Claim C1: the class loop of `apply` is hard-coded to
`for class_idx in [0]`, so on a two-class run whose second class has a
fully valid candidate the pipeline output carries only the first class's
detection, while the general per-class loop the spec describes (and the
source has commented out) also yields the second class's detection. -/
theorem C1_single_class_hardcoding :
    applyPost classesTwo (fun _ => cwDefault) zeroOracle (fun _ => 1/10)
        covTwo bbTwo [⟨"img0.png"⟩] 1 1 =
      Except.ok [([⟨"car", ⟨10, 10, 50, 50⟩, 9/10⟩], "img0.png")] ∧
    processImageSpec classesTwo (fun _ => cwDefault) zeroOracle
        (covTwo.getD 0 []) (bbTwo.getD 0 [])
        ((thresholded_indices covTwo classesTwo (fun _ => 1/10)).getD 0
          []) =
      [⟨"car", ⟨10, 10, 50, 50⟩, 9/10⟩,
       ⟨"bicycle", ⟨20, 20, 60, 60⟩, 9/10⟩] := by
  refine ⟨?_, ?_⟩
  · norm_num [applyPost, covClassDim, batchwiseBoxes, thresholded_indices,
      List.enum, List.enumFrom, processImage, processClass, selectIndices,
      classDetections, uniqueLabels, sortLabels, insertSorted, zeroOracle,
      membersOfLabel, clusterDetection, aggregated_w, mean_bbox, cwDefault,
      renderLoop, renderAux, return_bbox_info, List.filterMap_cons,
      classesTwo, covTwo, bbTwo]
    decide
  · norm_num [processImageSpec, thresholded_indices, List.enum,
      List.enumFrom, processClass, selectIndices, classDetections,
      uniqueLabels, sortLabels, insertSorted, zeroOracle, membersOfLabel,
      clusterDetection, aggregated_w, mean_bbox, cwDefault,
      List.filterMap_cons, classesTwo, covTwo, bbTwo, List.range_succ]
